import Mathlib

/-!
Verification of `scripts/generate_modulator_presets.py`.

The script builds, for each shape definition, a fixed-size parameter array of
86 textual slots, splices a double-quoted name in at index 64, joins the 87
tokens with single spaces, UTF-8-encodes and base64-encodes the result, wraps
the base64 text into 80-character lines indented by four spaces, and emits the
records inside a `<REAPER_PRESET_LIBRARY ...>` container.

The embedding below follows the Python source line by line.  Numeric inputs
(point coordinates and curve biases) are modelled by their decimal string
renderings, which is what `str(...)` produces at the single place the script
uses them.  The point count is kept as a natural number and rendered with
`toString`, matching `str(num_points)`.
-/

namespace SideFX

/-- The space character (code point 32), the token separator of the format. -/
def spaceChar : Char := Char.ofNat 32

/-- Python `list.insert(i, x)`: `l[:i] + [x] + l[i:]`. -/
def pyInsert (l : List String) (i : Nat) (x : String) : List String :=
  l.take i ++ x :: l.drop i

/-- One iteration of the point-filling loop (`for i in range(16)`): if a point
with index `i` exists its two components are written to slots `39+2*i` and
`39+2*i+1`, otherwise the neutral pair `0.5`/`0.5` is written. -/
def pointStep (points : List (String × String)) (v : List String) (i : Nat) :
    List String :=
  match points[i]? with
  | some p => (v.set (39 + 2*i) p.1).set (39 + 2*i + 1) p.2
  | none => (v.set (39 + 2*i) "0.5").set (39 + 2*i + 1) "0.5"

/-- The point-filling loop, truncated after `k` iterations (used for
induction; the script runs it with `k = 16`). -/
def setPointsUpTo (points : List (String × String)) (k : Nat)
    (v : List String) : List String :=
  (List.range k).foldl (pointStep points) v

/-- `for i in range(16): ...` — the full point-filling loop of the script. -/
def setPoints (v : List String) (points : List (String × String)) :
    List String :=
  setPointsUpTo points 16 v

/-- Lines 12–40 (and the identical lines 56–84) of the script: the 86-slot
parameter array before the name is inserted.  Slots start as the placeholder
`"-"`; the rate, trigger, grid/mode and point-count slots are set to the
literal constants of the source; then the point loop fills slots 39–70. -/
def buildValues (num_points : Nat) (points : List (String × String)) :
    List String :=
  let values := List.replicate 86 "-"
  let values :=
    (((((values.set 0 "0").set 1 "1").set 2 "5").set 3 "0").set 4 "0").set 5 "1"
  let values :=
    (((((values.set 19 "0").set 20 "0").set 21 "0").set 22 "0.5").set 23
      "100").set 24 "500"
  let values :=
    ((((values.set 25 "2").set 26 "1").set 27 "0").set 28 "0").set 29
      (toString num_points)
  setPoints values points

/-- `f'"{name}"'` — the name wrapped in double quotes. -/
def quoteName (name : String) : String := "\"" ++ name ++ "\""

/-- One iteration of the curve loop of `create_curved_preset`
(`for i, curve in enumerate(curves): if i < 15: values[72 + i] = str(curve)`). -/
def curveStep (v : List String) (p : Nat × String) : List String :=
  if p.1 < 15 then v.set (72 + p.1) p.2 else v

/-- The curve loop of `create_curved_preset`, acting on the token list after
the name has been inserted. -/
def setCurves (v : List String) (curves : List String) : List String :=
  curves.enum.foldl curveStep v

/-- The curve loop of `create_curved_preset` started at enumeration index `j`
(used for induction; the script's loop is the case `j = 0`). -/
def setCurvesFrom (j : Nat) (curves : List String) (v : List String) :
    List String :=
  (curves.enumFrom j).foldl curveStep v

/-- The curve-zeroing loop of `create_basic_preset`
(`for i in range(15): values[72 + i] = "0"`). -/
def setCurvesZero (v : List String) : List String :=
  (List.range 15).foldl (fun v i => v.set (72 + i) "0") v

/-- The 87-token sequence assembled by `create_basic_preset` just before
serialisation: build the array, insert the quoted name at index 64, then force
all fifteen curve slots to `"0"`. -/
def tokensBasic (name : String) (num_points : Nat)
    (points : List (String × String)) : List String :=
  setCurvesZero (pyInsert (buildValues num_points points) 64 (quoteName name))

/-- The 87-token sequence assembled by `create_curved_preset` just before
serialisation: build the array, insert the quoted name at index 64, then write
the supplied curve biases into slots 72–86. -/
def tokensCurved (name : String) (num_points : Nat)
    (points : List (String × String)) (curves : List String) : List String :=
  setCurves (pyInsert (buildValues num_points points) 64 (quoteName name)) curves

/-- Python `sep.join(parts)`. -/
def pyJoinSep (sep : String) : List String → String
  | [] => ""
  | [t] => t
  | t :: ts => t ++ sep ++ pyJoinSep sep ts

/-- UTF-8 encoding of a single scalar value, as performed by `str.encode()`. -/
def utf8EncodeChar (c : Char) : List Nat :=
  let n := c.toNat
  if n < 128 then [n]
  else if n < 2048 then [192 + n / 64, 128 + n % 64]
  else if n < 65536 then [224 + n / 4096, 128 + n / 64 % 64, 128 + n % 64]
  else [240 + n / 262144, 128 + n / 4096 % 64, 128 + n / 64 % 64, 128 + n % 64]

/-- `s.encode()` — the UTF-8 bytes of a string, each byte a `Nat < 256`. -/
def utf8Bytes (s : String) : List Nat :=
  (s.data.map utf8EncodeChar).flatten

/-- The standard base64 alphabet used by `base64.b64encode`. -/
def b64Alphabet : List Char :=
  "ABCDEFGHIJKLMNOPQRSTUVWXYZabcdefghijklmnopqrstuvwxyz0123456789+/".data

/-- The base64 digit for a sextet value. -/
def b64c (n : Nat) : Char := b64Alphabet.getD n 'A'

/-- `base64.b64encode`: bytes to base64 characters, with `=` padding. -/
def b64encodeList : List Nat → List Char
  | [] => []
  | [a] => [b64c (a / 4), b64c (a % 4 * 16), '=', '=']
  | [a, b] => [b64c (a / 4), b64c (a % 4 * 16 + b / 16), b64c (b % 16 * 4), '=']
  | a :: b :: c :: rest =>
    b64c (a / 4) :: b64c (a % 4 * 16 + b / 16) :: b64c (b % 16 * 4 + c / 64) ::
      b64c (c % 64) :: b64encodeList rest

/-- `[encoded[i:i+80] for i in range(0, len(encoded), 80)]` — the 80-character
chunks of the base64 text.  `range(0, L, 80)` has `(L + 79) / 80` elements. -/
def chunks80 (s : List Char) : List (List Char) :=
  (List.range ((s.length + 79) / 80)).map (fun k => (s.drop (80 * k)).take 80)

/-- `create_basic_preset` of the script: tokens, space-join, UTF-8, base64,
80-character lines joined by a newline plus four spaces of indentation. -/
def create_basic_preset (name : String) (num_points : Nat)
    (points : List (String × String)) : String :=
  let values := tokensBasic name num_points points
  let full := pyJoinSep " " values
  let encoded := b64encodeList (utf8Bytes full)
  let lines := chunks80 encoded
  pyJoinSep "\n    " (lines.map List.asString)

/-- `create_curved_preset` of the script. -/
def create_curved_preset (name : String) (num_points : Nat)
    (points : List (String × String)) (curves : List String) : String :=
  let values := tokensCurved name num_points points curves
  let full := pyJoinSep " " values
  let encoded := b64encodeList (utf8Bytes full)
  let lines := chunks80 encoded
  pyJoinSep "\n    " (lines.map List.asString)

/-- The three `print` calls of `main`'s per-shape loop body: the record header
with the backtick-delimited name, the indented encoded body, the closing `>`. -/
def recordText (name : String) (encoded : String) : String :=
  "  <PRESET `" ++ name ++ "`\n" ++ "    " ++ encoded ++ "\n" ++ "  >\n"

/-- The static table of basic shapes of `main`.  The `Sine` entry's points are
`generate_sine_points(16)`, whose floating-point values are kept as a
parameter; all other coordinates are the decimal renderings of the literals of
the source. -/
def basicTable (sinePts : List (String × String)) :
    List (String × Nat × List (String × String)) :=
  [("Sine", 16, sinePts),
   ("Triangle", 3, [("0", "0"), ("0.5", "1"), ("1", "0")]),
   ("Sawtooth", 4, [("0", "0.5"), ("0.499", "1"), ("0.5", "0"), ("1", "0.5")]),
   ("Square", 4, [("0", "1"), ("0.499", "1"), ("0.5", "0"), ("1", "0")]),
   ("Ramp_Up", 2, [("0", "0"), ("1", "1")]),
   ("Ramp_Down", 2, [("0", "1"), ("1", "0")]),
   ("Growl", 6, [("0", "0.1"), ("0.2", "0.8"), ("0.4", "0.2"), ("0.6", "0.9"),
     ("0.8", "0.3"), ("1", "0")]),
   ("Exp_Rise", 2, [("0", "0"), ("1", "1")]),
   ("Exp_Fall", 2, [("0", "1"), ("1", "0")])]

/-- The static table of curved shapes of `main`. -/
def curvedTable : List (String × Nat × List (String × String) × List String) :=
  [("Shark_Fin", 3, [("0", "0"), ("0.2", "1"), ("1", "0")], ["-0.5", "0.5"])]

/-- The text printed by `main` for given shape tables: the library header
line, one record per basic entry, one record per curved entry, the trailing
`>` line.  Each `print` contributes its argument followed by a newline. -/
def libraryOutput (basicT : List (String × Nat × List (String × String)))
    (curvedT : List (String × Nat × List (String × String) × List String)) :
    String :=
  "<REAPER_PRESET_LIBRARY \"JS: SideFX Modulator\"\n"
  ++ basicT.foldl
      (fun acc e => acc ++ recordText e.1 (create_basic_preset e.1 e.2.1 e.2.2))
      ""
  ++ curvedT.foldl
      (fun acc e =>
        acc ++ recordText e.1 (create_curved_preset e.1 e.2.1 e.2.2.1 e.2.2.2))
      ""
  ++ ">\n"

/-- The whole standard output of `main`, as a function of the floating-point
sine table. -/
def mainOutput (sinePts : List (String × String)) : String :=
  libraryOutput (basicTable sinePts) curvedTable

/-! ### Decoding definitions (the test-harness side of the round-trip and
error-handling claims; they are not part of the script). -/

/-- Inverse lookup in the base64 alphabet. -/
def b64dcAux : List Char → Nat → Char → Option Nat
  | [], _, _ => none
  | x :: xs, i, c => if x = c then some i else b64dcAux xs (i + 1) c

/-- The sextet value of a base64 digit, `none` for a non-alphabet character. -/
def b64dc (c : Char) : Option Nat := b64dcAux b64Alphabet 0 c

/-- `base64.b64decode`: base64 characters back to bytes, rejecting malformed
input. -/
def b64decodeList : List Char → Option (List Nat)
  | [] => some []
  | c1 :: c2 :: c3 :: c4 :: rest =>
    match b64dc c1, b64dc c2 with
    | some a, some b =>
      if c3 = '=' then
        if c4 = '=' ∧ rest = [] then
          if b % 16 = 0 then some [a * 4 + b / 16] else none
        else none
      else
        match b64dc c3 with
        | some c =>
          if c4 = '=' then
            if rest = [] ∧ c % 4 = 0 then
              some [a * 4 + b / 16, b % 16 * 16 + c / 4]
            else none
          else
            match b64dc c4 with
            | some d =>
              (b64decodeList rest).map
                (fun bs => (a * 4 + b / 16) :: (b % 16 * 16 + c / 4) ::
                  (c % 4 * 64 + d) :: bs)
            | none => none
        | none => none
    | _, _ => none
  | _ => none

/-- Completion of a two-byte UTF-8 sequence whose lead byte is `b`. -/
def utf8Dec2 (b : Nat) : List Nat → Option (Nat × List Nat)
  | b1 :: bs1 =>
    if 128 ≤ b1 ∧ b1 < 192 then
      some ((b - 192) * 64 + (b1 - 128), bs1)
    else none
  | [] => none

/-- Completion of a three-byte UTF-8 sequence whose lead byte is `b`. -/
def utf8Dec3 (b : Nat) : List Nat → Option (Nat × List Nat)
  | b1 :: b2 :: bs2 =>
    if (128 ≤ b1 ∧ b1 < 192) ∧ (128 ≤ b2 ∧ b2 < 192) then
      some ((b - 224) * 4096 + (b1 - 128) * 64 + (b2 - 128), bs2)
    else none
  | _ => none

/-- Completion of a four-byte UTF-8 sequence whose lead byte is `b`. -/
def utf8Dec4 (b : Nat) : List Nat → Option (Nat × List Nat)
  | b1 :: b2 :: b3 :: bs3 =>
    if (128 ≤ b1 ∧ b1 < 192) ∧ (128 ≤ b2 ∧ b2 < 192) ∧
        (128 ≤ b3 ∧ b3 < 192) then
      some ((b - 240) * 262144 + (b1 - 128) * 4096 +
        (b2 - 128) * 64 + (b3 - 128), bs3)
    else none
  | _ => none

/-- One step of UTF-8 decoding: reads the encoding of a single scalar value
from the front of the byte list and returns the code point together with the
remaining bytes; `none` on malformed input. -/
def utf8DecodeStep : List Nat → Option (Nat × List Nat)
  | [] => none
  | b :: bs =>
    if b < 128 then some (b, bs)
    else if b < 192 then none
    else if b < 224 then utf8Dec2 b bs
    else if b < 240 then utf8Dec3 b bs
    else utf8Dec4 b bs

/-- The UTF-8 decoding loop; the fuel argument (instantiated with the byte
count, an upper bound on the number of scalar values) makes the recursion
structural. -/
def utf8DecodeAux : Nat → List Nat → Option (List Char)
  | _, [] => some []
  | 0, _ :: _ => none
  | fuel + 1, b :: bs =>
    match utf8DecodeStep (b :: bs) with
    | none => none
    | some (n, rest) => (utf8DecodeAux fuel rest).map (fun cs => Char.ofNat n :: cs)

/-- `bytes.decode()`: UTF-8 decoding back to scalar values. -/
def utf8Decode (bs : List Nat) : Option (List Char) :=
  utf8DecodeAux bs.length bs

/-- Python `text.split(" ")`: split at every single space, keeping empty
pieces. -/
def splitSp : List Char → List (List Char)
  | [] => [[]]
  | c :: cs =>
    match splitSp cs with
    | [] => [[]]
    | t :: ts => if c = spaceChar then [] :: t :: ts else (c :: t) :: ts

/-- Joining character lists with a separator, mirroring `pyJoinSep` at the
character level. -/
def joinChars (sep : List Char) : List (List Char) → List Char
  | [] => []
  | [t] => t
  | t :: ts => t ++ sep ++ joinChars sep ts

/-- The full decoding pipeline of the round-trip property: base64-decode the
payload, UTF-8-decode the bytes, split the text on single spaces. -/
def decodeAndSplit (payload : String) : Option (List String) :=
  (b64decodeList payload.data).bind fun bs =>
    (utf8Decode bs).map fun cs => (splitSp cs).map List.asString

/-- The base64 payload (before line wrapping) produced by
`create_basic_preset`. -/
def payloadBasic (name : String) (num_points : Nat)
    (points : List (String × String)) : List Char :=
  b64encodeList (utf8Bytes (pyJoinSep " " (tokensBasic name num_points points)))

/-- The base64 payload (before line wrapping) produced by
`create_curved_preset`. -/
def payloadCurved (name : String) (num_points : Nat)
    (points : List (String × String)) (curves : List String) : List Char :=
  b64encodeList
    (utf8Bytes (pyJoinSep " " (tokensCurved name num_points points curves)))

/-- The value written by iteration `j` of the point loop into slot `39+2*j`:
the first component of point `j` if it exists, else the neutral `"0.5"`. -/
def fstTok (points : List (String × String)) (j : Nat) : String :=
  match points[j]? with
  | some p => p.1
  | none => "0.5"

/-- The value written by iteration `j` of the point loop into slot `39+2*j+1`:
the second component of point `j` if it exists, else the neutral `"0.5"`. -/
def sndTok (points : List (String × String)) (j : Nat) : String :=
  match points[j]? with
  | some p => p.2
  | none => "0.5"

/-- A string containing no space character.  Every token the script ever
places in the parameter array is the `str(...)` rendering of a number, a
literal constant, or the quoted name; the space-join / space-split round trip
relies on no token containing the separator. -/
def NoSpace (t : String) : Prop := spaceChar ∉ t.data

instance (t : String) : Decidable (NoSpace t) := by
  unfold NoSpace
  infer_instance

/-- Every slot of a token list is space-free. -/
def SlotsNoSpace (l : List String) : Prop := ∀ t ∈ l, NoSpace t

/-! ### Generic fold helpers -/

theorem foldl_preserve {α β : Type} (P : β → Prop) (f : β → α → β)
    (h : ∀ b a, P b → P (f b a)) : ∀ (l : List α) (b : β), P b → P (l.foldl f b) := by
  intro l
  induction l with
  | nil => intro b hb; exact hb
  | cons a l ih => intro b hb; exact ih (f b a) (h b a hb)

/-! ### Point-loop lemmas -/

theorem length_pointStep (pts : List (String × String)) (v : List String)
    (i : Nat) : (pointStep pts v i).length = v.length := by
  unfold pointStep
  cases pts[i]? <;> simp

theorem pointStep_get_ne (pts : List (String × String)) (v : List String)
    (i m : Nat) (h1 : m ≠ 39 + 2 * i) (h2 : m ≠ 39 + 2 * i + 1) :
    (pointStep pts v i)[m]? = v[m]? := by
  unfold pointStep
  cases pts[i]? <;>
    rw [List.getElem?_set_ne (Ne.symm h2), List.getElem?_set_ne (Ne.symm h1)]

theorem pointStep_get_fst (pts : List (String × String)) (v : List String)
    (i : Nat) (h : 39 + 2 * i + 1 < v.length) :
    (pointStep pts v i)[39 + 2 * i]? = some (fstTok pts i) := by
  unfold pointStep fstTok
  cases pts[i]? <;>
    · rw [List.getElem?_set_ne (show 39 + 2 * i + 1 ≠ 39 + 2 * i by omega),
        List.getElem?_set_self', List.getElem?_eq_getElem (show 39 + 2 * i < v.length by omega)]
      rfl

theorem pointStep_get_snd (pts : List (String × String)) (v : List String)
    (i : Nat) (h : 39 + 2 * i + 1 < v.length) :
    (pointStep pts v i)[39 + 2 * i + 1]? = some (sndTok pts i) := by
  unfold pointStep sndTok
  cases pts[i]? <;>
    · rw [List.getElem?_set_self',
        List.getElem?_set_ne (show 39 + 2 * i ≠ 39 + 2 * i + 1 by omega),
        List.getElem?_eq_getElem h]
      rfl

theorem setPointsUpTo_succ (pts : List (String × String)) (k : Nat)
    (v : List String) :
    setPointsUpTo pts (k + 1) v = pointStep pts (setPointsUpTo pts k v) k := by
  unfold setPointsUpTo
  rw [List.range_succ, List.foldl_append]
  rfl

theorem length_setPointsUpTo (pts : List (String × String)) (k : Nat)
    (v : List String) : (setPointsUpTo pts k v).length = v.length := by
  induction k with
  | zero => rfl
  | succ k ih => rw [setPointsUpTo_succ, length_pointStep, ih]

theorem setPointsUpTo_get_lo (pts : List (String × String)) (k : Nat)
    (v : List String) (m : Nat) (hm : m < 39) :
    (setPointsUpTo pts k v)[m]? = v[m]? := by
  induction k with
  | zero => rfl
  | succ k ih =>
    rw [setPointsUpTo_succ, pointStep_get_ne _ _ _ _ (by omega) (by omega), ih]

theorem setPointsUpTo_get_hi (pts : List (String × String)) (k : Nat)
    (v : List String) (m : Nat) :
    39 + 2 * k ≤ m → (setPointsUpTo pts k v)[m]? = v[m]? := by
  induction k with
  | zero => intro _; rfl
  | succ k ih =>
    intro hm
    rw [setPointsUpTo_succ, pointStep_get_ne _ _ _ _ (by omega) (by omega),
      ih (by omega)]

theorem setPointsUpTo_get_fst (pts : List (String × String)) (k : Nat)
    (v : List String) (j : Nat) (hv : 39 + 2 * j + 1 < v.length) :
    j < k → (setPointsUpTo pts k v)[39 + 2 * j]? = some (fstTok pts j) := by
  induction k with
  | zero => omega
  | succ k ih =>
    intro hj
    rw [setPointsUpTo_succ]
    rcases Nat.lt_or_ge j k with hjk | hjk
    · rw [pointStep_get_ne _ _ _ _ (by omega) (by omega), ih hjk]
    · have hjeq : j = k := by omega
      subst hjeq
      exact pointStep_get_fst pts _ j
        (by rw [length_setPointsUpTo]; omega)

theorem setPointsUpTo_get_snd (pts : List (String × String)) (k : Nat)
    (v : List String) (j : Nat) (hv : 39 + 2 * j + 1 < v.length) :
    j < k → (setPointsUpTo pts k v)[39 + 2 * j + 1]? = some (sndTok pts j) := by
  induction k with
  | zero => omega
  | succ k ih =>
    intro hj
    rw [setPointsUpTo_succ]
    rcases Nat.lt_or_ge j k with hjk | hjk
    · rw [pointStep_get_ne _ _ _ _ (by omega) (by omega), ih hjk]
    · have hjeq : j = k := by omega
      subst hjeq
      exact pointStep_get_snd pts _ j
        (by rw [length_setPointsUpTo]; omega)

/-! ### Curve-loop lemmas -/

theorem setCurves_eq_from (v : List String) (curves : List String) :
    setCurves v curves = setCurvesFrom 0 curves v := rfl

theorem setCurvesFrom_nil (j : Nat) (v : List String) :
    setCurvesFrom j [] v = v := rfl

theorem setCurvesFrom_cons (j : Nat) (c : String) (cs : List String)
    (v : List String) :
    setCurvesFrom j (c :: cs) v = setCurvesFrom (j + 1) cs (curveStep v (j, c)) :=
  rfl

theorem length_curveStep (v : List String) (p : Nat × String) :
    (curveStep v p).length = v.length := by
  unfold curveStep
  split <;> simp

theorem length_setCurvesFrom (cs : List String) :
    ∀ (j : Nat) (v : List String), (setCurvesFrom j cs v).length = v.length := by
  induction cs with
  | nil => intro j v; rfl
  | cons c cs ih =>
    intro j v
    rw [setCurvesFrom_cons, ih, length_curveStep]

theorem setCurvesFrom_get_lo (cs : List String) :
    ∀ (j : Nat) (v : List String) (m : Nat), m < 72 + j →
      (setCurvesFrom j cs v)[m]? = v[m]? := by
  induction cs with
  | nil => intro j v m _; rfl
  | cons c cs ih =>
    intro j v m hm
    rw [setCurvesFrom_cons, ih _ _ _ (by omega)]
    unfold curveStep
    split
    · rw [List.getElem?_set_ne (show 72 + j ≠ m by omega)]
    · rfl

theorem setCurvesFrom_get_hi (cs : List String) :
    ∀ (j : Nat) (v : List String) (m : Nat), 72 + j + cs.length ≤ m →
      (setCurvesFrom j cs v)[m]? = v[m]? := by
  induction cs with
  | nil => intro j v m _; rfl
  | cons c cs ih =>
    intro j v m hm
    rw [setCurvesFrom_cons, ih _ _ _ (by simp at hm ⊢; omega)]
    unfold curveStep
    split
    · rw [List.getElem?_set_ne (show 72 + j ≠ m by simp at hm; omega)]
    · rfl

theorem setCurvesFrom_get_hit (cs : List String) :
    ∀ (j : Nat) (v : List String) (i : Nat), i < cs.length → j + i < 15 →
      72 + j + i < v.length →
      (setCurvesFrom j cs v)[72 + j + i]? = cs[i]? := by
  induction cs with
  | nil => intro j v i h _ _; simp at h
  | cons c cs ih =>
    intro j v i hi hj hv
    rw [setCurvesFrom_cons]
    cases i with
    | zero =>
      rw [setCurvesFrom_get_lo _ _ _ _ (by omega)]
      unfold curveStep
      dsimp only
      rw [if_pos (show j < 15 by omega)]
      have harith : 72 + j + 0 = 72 + j := by omega
      rw [harith, List.getElem?_set_self (show 72 + j < v.length by omega),
        List.getElem?_cons_zero]
    | succ i =>
      have harith : 72 + j + (i + 1) = 72 + (j + 1) + i := by omega
      rw [harith,
        ih (j + 1) _ i (by simpa using hi) (by omega)
          (by rw [length_curveStep]; omega),
        List.getElem?_cons_succ]

theorem setCurvesFrom_ge15 (cs : List String) :
    ∀ (j : Nat) (v : List String), 15 ≤ j → setCurvesFrom j cs v = v := by
  induction cs with
  | nil => intro j v _; rfl
  | cons c cs ih =>
    intro j v hj
    rw [setCurvesFrom_cons, ih _ _ (by omega)]
    unfold curveStep
    rw [if_neg (by omega)]

theorem setCurvesFrom_take (cs : List String) :
    ∀ (j : Nat) (v : List String),
      setCurvesFrom j cs v = setCurvesFrom j (cs.take (15 - j)) v := by
  induction cs with
  | nil => intro j v; rw [List.take_nil]
  | cons c cs ih =>
    intro j v
    by_cases hj : j < 15
    · have h15 : 15 - j = (15 - (j + 1)) + 1 := by omega
      rw [h15, List.take_succ_cons, setCurvesFrom_cons, setCurvesFrom_cons,
        ih (j + 1)]
    · have h15 : 15 - j = 0 := by omega
      rw [h15, List.take_zero, setCurvesFrom_nil, setCurvesFrom_cons]
      rw [setCurvesFrom_ge15 _ _ _ (by omega)]
      unfold curveStep
      rw [if_neg (by omega)]

/-- The curve-zeroing loop of `create_basic_preset` coincides with the curve
loop of `create_curved_preset` run on fifteen `"0"` strings. -/
theorem setCurvesZero_eq (v : List String) :
    setCurvesZero v = setCurves v (List.replicate 15 "0") := rfl

/-! ### Insertion lemmas -/

theorem length_pyInsert (l : List String) (i : Nat) (x : String)
    (h : i ≤ l.length) : (pyInsert l i x).length = l.length + 1 := by
  simp [pyInsert]
  omega

theorem pyInsert_get_lt (l : List String) (i : Nat) (x : String) (m : Nat)
    (h1 : m < i) (h2 : i ≤ l.length) : (pyInsert l i x)[m]? = l[m]? := by
  unfold pyInsert
  rw [List.getElem?_append_left (by simp; omega), List.getElem?_take_of_lt h1]

theorem pyInsert_get_self (l : List String) (i : Nat) (x : String)
    (h : i ≤ l.length) : (pyInsert l i x)[i]? = some x := by
  unfold pyInsert
  have hlen : (l.take i).length = i := by simp [Nat.min_eq_left h]
  rw [List.getElem?_append_right (by omega), hlen, Nat.sub_self,
    List.getElem?_cons_zero]

theorem pyInsert_get_gt (l : List String) (i : Nat) (x : String) (m : Nat)
    (h1 : i < m) (h2 : i ≤ l.length) : (pyInsert l i x)[m]? = l[m - 1]? := by
  unfold pyInsert
  have hlen : (l.take i).length = i := by simp [Nat.min_eq_left h2]
  rw [List.getElem?_append_right (by omega), hlen]
  have hsub : m - i = (m - i - 1) + 1 := by omega
  rw [hsub, List.getElem?_cons_succ, List.getElem?_drop]
  congr 1
  omega

/-! ### Parameter-array lemmas -/

theorem length_buildValues (n : Nat) (pts : List (String × String)) :
    (buildValues n pts).length = 86 := by
  unfold buildValues setPoints
  rw [length_setPointsUpTo]
  simp

theorem buildValues_get_hi (n : Nat) (pts : List (String × String)) (m : Nat)
    (h1 : 71 ≤ m) (h2 : m < 86) : (buildValues n pts)[m]? = some "-" := by
  unfold buildValues setPoints
  rw [setPointsUpTo_get_hi _ 16 _ m (by omega),
    List.getElem?_set_ne (show 29 ≠ m by omega),
    List.getElem?_set_ne (show 28 ≠ m by omega),
    List.getElem?_set_ne (show 27 ≠ m by omega),
    List.getElem?_set_ne (show 26 ≠ m by omega),
    List.getElem?_set_ne (show 25 ≠ m by omega),
    List.getElem?_set_ne (show 24 ≠ m by omega),
    List.getElem?_set_ne (show 23 ≠ m by omega),
    List.getElem?_set_ne (show 22 ≠ m by omega),
    List.getElem?_set_ne (show 21 ≠ m by omega),
    List.getElem?_set_ne (show 20 ≠ m by omega),
    List.getElem?_set_ne (show 19 ≠ m by omega),
    List.getElem?_set_ne (show 5 ≠ m by omega),
    List.getElem?_set_ne (show 4 ≠ m by omega),
    List.getElem?_set_ne (show 3 ≠ m by omega),
    List.getElem?_set_ne (show 2 ≠ m by omega),
    List.getElem?_set_ne (show 1 ≠ m by omega),
    List.getElem?_set_ne (show 0 ≠ m by omega),
    List.getElem?_replicate, if_pos h2]

theorem buildValues_get_29 (n : Nat) (pts : List (String × String)) :
    (buildValues n pts)[29]? = some (toString n) := by
  unfold buildValues setPoints
  rw [setPointsUpTo_get_lo _ 16 _ 29 (by omega)]
  rw [List.getElem?_set_self (by simp)]

theorem buildValues_get_fst (n : Nat) (pts : List (String × String)) (j : Nat)
    (hj : j < 16) : (buildValues n pts)[39 + 2 * j]? = some (fstTok pts j) := by
  unfold buildValues setPoints
  exact setPointsUpTo_get_fst _ 16 _ j (by simp; omega) hj

theorem buildValues_get_snd (n : Nat) (pts : List (String × String)) (j : Nat)
    (hj : j < 16) :
    (buildValues n pts)[39 + 2 * j + 1]? = some (sndTok pts j) := by
  unfold buildValues setPoints
  exact setPointsUpTo_get_snd _ 16 _ j (by simp; omega) hj

/-! ### Token-sequence lemmas -/

theorem tokensBasic_eq (name : String) (n : Nat)
    (pts : List (String × String)) :
    tokensBasic name n pts =
      setCurvesFrom 0 (List.replicate 15 "0")
        (pyInsert (buildValues n pts) 64 (quoteName name)) := rfl

theorem tokensCurved_eq (name : String) (n : Nat)
    (pts : List (String × String)) (curves : List String) :
    tokensCurved name n pts curves =
      setCurvesFrom 0 curves
        (pyInsert (buildValues n pts) 64 (quoteName name)) := rfl

theorem length_tokensBasic (name : String) (n : Nat)
    (pts : List (String × String)) : (tokensBasic name n pts).length = 87 := by
  rw [tokensBasic_eq, length_setCurvesFrom,
    length_pyInsert _ _ _ (by rw [length_buildValues]; omega),
    length_buildValues]

theorem length_tokensCurved (name : String) (n : Nat)
    (pts : List (String × String)) (curves : List String) :
    (tokensCurved name n pts curves).length = 87 := by
  rw [tokensCurved_eq, length_setCurvesFrom,
    length_pyInsert _ _ _ (by rw [length_buildValues]; omega),
    length_buildValues]

theorem tokensBasic_get64 (name : String) (n : Nat)
    (pts : List (String × String)) :
    (tokensBasic name n pts)[64]? = some (quoteName name) := by
  rw [tokensBasic_eq, setCurvesFrom_get_lo _ _ _ _ (by omega),
    pyInsert_get_self _ _ _ (by rw [length_buildValues]; omega)]

theorem tokensCurved_get64 (name : String) (n : Nat)
    (pts : List (String × String)) (curves : List String) :
    (tokensCurved name n pts curves)[64]? = some (quoteName name) := by
  rw [tokensCurved_eq, setCurvesFrom_get_lo _ _ _ _ (by omega),
    pyInsert_get_self _ _ _ (by rw [length_buildValues]; omega)]

theorem tokensCurved_get_curve (name : String) (n : Nat)
    (pts : List (String × String)) (curves : List String) (i : Nat)
    (hi : i < curves.length) (h15 : i < 15) :
    (tokensCurved name n pts curves)[72 + i]? = curves[i]? := by
  rw [tokensCurved_eq]
  have h := setCurvesFrom_get_hit curves 0 (pyInsert (buildValues n pts) 64
    (quoteName name)) i hi (by omega)
    (by rw [length_pyInsert _ _ _ (by rw [length_buildValues]; omega),
          length_buildValues]; omega)
  have harith : 72 + 0 + i = 72 + i := by omega
  rwa [harith] at h

theorem tokensCurved_get_dash (name : String) (n : Nat)
    (pts : List (String × String)) (curves : List String) (i : Nat)
    (hi : curves.length ≤ i) (h15 : i < 15) :
    (tokensCurved name n pts curves)[72 + i]? = some "-" := by
  rw [tokensCurved_eq, setCurvesFrom_get_hi _ _ _ _ (by omega),
    pyInsert_get_gt _ _ _ _ (by omega) (by rw [length_buildValues]; omega)]
  exact buildValues_get_hi n pts _ (by omega) (by omega)

/-! ### Space-freeness of the tokens -/

theorem foldl_preserve_mem {α β : Type} (P : β → Prop) (f : β → α → β) :
    ∀ (l : List α), (∀ b a, a ∈ l → P b → P (f b a)) →
      ∀ b : β, P b → P (l.foldl f b) := by
  intro l
  induction l with
  | nil => intro _ b hb; exact hb
  | cons a l ih =>
    intro h b hb
    exact ih (fun b' a' ha' => h b' a' (List.mem_cons_of_mem _ ha')) (f b a)
      (h b a (List.mem_cons_self _ _) hb)

theorem noSpace_dash : NoSpace "-" := by decide

theorem noSpace_half : NoSpace "0.5" := by decide

theorem noSpace_zero : NoSpace "0" := by decide

theorem digitChar_ne_space (m : Nat) : Nat.digitChar m ≠ spaceChar := by
  by_cases h : m < 16
  · interval_cases m <;> decide
  · unfold Nat.digitChar
    rw [if_neg (show m ≠ 0 by omega), if_neg (show m ≠ 1 by omega),
      if_neg (show m ≠ 2 by omega), if_neg (show m ≠ 3 by omega),
      if_neg (show m ≠ 4 by omega), if_neg (show m ≠ 5 by omega),
      if_neg (show m ≠ 6 by omega), if_neg (show m ≠ 7 by omega),
      if_neg (show m ≠ 8 by omega), if_neg (show m ≠ 9 by omega),
      if_neg (show m ≠ 10 by omega), if_neg (show m ≠ 11 by omega),
      if_neg (show m ≠ 12 by omega), if_neg (show m ≠ 13 by omega),
      if_neg (show m ≠ 14 by omega), if_neg (show m ≠ 15 by omega)]
    decide

theorem toDigitsCore_no_space :
    ∀ (fuel n : Nat) (acc : List Char), spaceChar ∉ acc →
      spaceChar ∉ Nat.toDigitsCore 10 fuel n acc := by
  intro fuel
  induction fuel with
  | zero => intro n acc h; exact h
  | succ fuel ih =>
    intro n acc h
    have hd : spaceChar ∉ (Nat.digitChar (n % 10) :: acc) := by
      intro hmem
      rcases List.mem_cons.1 hmem with heq | hmem'
      · exact digitChar_ne_space (n % 10) heq.symm
      · exact h hmem'
    by_cases h10 : n / 10 = 0
    · simp only [Nat.toDigitsCore, h10, if_pos]
      exact hd
    · simp only [Nat.toDigitsCore]
      rw [if_neg h10]
      exact ih _ _ hd

theorem noSpace_toString_nat (n : Nat) : NoSpace (toString n) := by
  show spaceChar ∉ (toString n).data
  have hdata : (toString n).data = Nat.toDigits 10 n := rfl
  rw [hdata]
  exact toDigitsCore_no_space (n + 1) n [] (by simp)

theorem noSpace_quoteName (name : String) (h : NoSpace name) :
    NoSpace (quoteName name) := by
  unfold NoSpace quoteName
  rw [String.data_append, String.data_append]
  intro hmem
  rcases List.mem_append.1 hmem with hmem' | hq
  · rcases List.mem_append.1 hmem' with hq | hn
    · revert hq; decide
    · exact h hn
  · revert hq; decide

theorem slotsNoSpace_replicate (n : Nat) :
    SlotsNoSpace (List.replicate n "-") := by
  intro t ht
  rw [List.eq_of_mem_replicate ht]
  exact noSpace_dash

theorem slotsNoSpace_set (l : List String) (i : Nat) (x : String)
    (hl : SlotsNoSpace l) (hx : NoSpace x) : SlotsNoSpace (l.set i x) := by
  intro t ht
  rcases List.mem_or_eq_of_mem_set ht with ht' | rfl
  · exact hl t ht'
  · exact hx

theorem slotsNoSpace_pointStep (pts : List (String × String)) (v : List String)
    (i : Nat) (hv : SlotsNoSpace v)
    (hpts : ∀ p ∈ pts, NoSpace p.1 ∧ NoSpace p.2) :
    SlotsNoSpace (pointStep pts v i) := by
  unfold pointStep
  cases hp : pts[i]? with
  | some p =>
    have hmem : p ∈ pts := List.getElem?_mem hp
    exact slotsNoSpace_set _ _ _ (slotsNoSpace_set _ _ _ hv (hpts p hmem).1)
      (hpts p hmem).2
  | none =>
    exact slotsNoSpace_set _ _ _ (slotsNoSpace_set _ _ _ hv noSpace_half)
      noSpace_half

theorem slotsNoSpace_buildValues (n : Nat) (pts : List (String × String))
    (hpts : ∀ p ∈ pts, NoSpace p.1 ∧ NoSpace p.2) :
    SlotsNoSpace (buildValues n pts) := by
  unfold buildValues setPoints setPointsUpTo
  apply foldl_preserve (P := SlotsNoSpace)
  · intro v i hv
    exact slotsNoSpace_pointStep pts v i hv hpts
  · apply slotsNoSpace_set _ _ _ _ (noSpace_toString_nat n)
    repeat'
      first
      | exact slotsNoSpace_replicate 86
      | apply slotsNoSpace_set _ _ _ _ (by decide)

theorem slotsNoSpace_pyInsert (l : List String) (i : Nat) (x : String)
    (hl : SlotsNoSpace l) (hx : NoSpace x) : SlotsNoSpace (pyInsert l i x) := by
  intro t ht
  unfold pyInsert at ht
  rcases List.mem_append.1 ht with ht' | ht'
  · exact hl t (List.mem_of_mem_take ht')
  · rcases List.mem_cons.1 ht' with rfl | ht''
    · exact hx
    · exact hl t (List.mem_of_mem_drop ht'')

theorem snd_mem_of_mem_enumFrom {cs : List String} :
    ∀ {j : Nat} {p : Nat × String}, p ∈ cs.enumFrom j → p.2 ∈ cs := by
  induction cs with
  | nil => intro j p h; simp at h
  | cons c cs ih =>
    intro j p h
    rw [List.enumFrom_cons] at h
    rcases List.mem_cons.1 h with rfl | h'
    · exact List.mem_cons_self _ _
    · exact List.mem_cons_of_mem _ (ih h')

theorem slotsNoSpace_setCurves (v : List String) (cs : List String)
    (hv : SlotsNoSpace v) (hcs : ∀ c ∈ cs, NoSpace c) :
    SlotsNoSpace (setCurves v cs) := by
  unfold setCurves List.enum
  apply foldl_preserve_mem (P := SlotsNoSpace) _ _ _ _ hv
  intro b p hp hb
  unfold curveStep
  split
  · exact slotsNoSpace_set _ _ _ hb (hcs p.2 (snd_mem_of_mem_enumFrom hp))
  · exact hb

theorem slotsNoSpace_tokensBasic (name : String) (n : Nat)
    (pts : List (String × String)) (hname : NoSpace name)
    (hpts : ∀ p ∈ pts, NoSpace p.1 ∧ NoSpace p.2) :
    SlotsNoSpace (tokensBasic name n pts) := by
  unfold tokensBasic
  rw [setCurvesZero_eq]
  apply slotsNoSpace_setCurves
  · exact slotsNoSpace_pyInsert _ _ _ (slotsNoSpace_buildValues n pts hpts)
      (noSpace_quoteName name hname)
  · intro c hc
    rw [List.eq_of_mem_replicate hc]
    exact noSpace_zero

theorem slotsNoSpace_tokensCurved (name : String) (n : Nat)
    (pts : List (String × String)) (curves : List String) (hname : NoSpace name)
    (hpts : ∀ p ∈ pts, NoSpace p.1 ∧ NoSpace p.2)
    (hcur : ∀ c ∈ curves, NoSpace c) :
    SlotsNoSpace (tokensCurved name n pts curves) := by
  unfold tokensCurved
  apply slotsNoSpace_setCurves
  · exact slotsNoSpace_pyInsert _ _ _ (slotsNoSpace_buildValues n pts hpts)
      (noSpace_quoteName name hname)
  · exact hcur

/-! ### Join and split lemmas -/

theorem pyJoinSep_data (sep : String) :
    ∀ ts : List String,
      (pyJoinSep sep ts).data = joinChars sep.data (ts.map String.data) := by
  intro ts
  induction ts with
  | nil => rfl
  | cons t ts ih =>
    cases ts with
    | nil => rfl
    | cons t' ts' =>
      show (t ++ sep ++ pyJoinSep sep (t' :: ts')).data = _
      rw [String.data_append, String.data_append, ih]
      rfl

theorem space_string_data : (" " : String).data = [spaceChar] := rfl

theorem splitSp_ne_nil (l : List Char) : splitSp l ≠ [] := by
  cases l with
  | nil => simp [splitSp]
  | cons c cs =>
    unfold splitSp
    split
    · simp
    · split <;> simp

theorem splitSp_cons_space (cs : List Char) :
    splitSp (spaceChar :: cs) = [] :: splitSp cs := by
  rcases h : splitSp cs with _ | ⟨t, ts⟩
  · exact absurd h (splitSp_ne_nil cs)
  · rw [splitSp, h]
    simp

theorem splitSp_no_space (t : List Char) (ht : spaceChar ∉ t) :
    splitSp t = [t] := by
  induction t with
  | nil => rfl
  | cons c cs ih =>
    have hc : c ≠ spaceChar := fun h => ht (h ▸ List.mem_cons_self c cs)
    have hcs : spaceChar ∉ cs := fun h => ht (List.mem_cons_of_mem c h)
    rw [splitSp, ih hcs]
    simp [hc]

theorem splitSp_append_space (t : List Char) (r : List Char)
    (ht : spaceChar ∉ t) : splitSp (t ++ spaceChar :: r) = t :: splitSp r := by
  induction t with
  | nil => simpa using splitSp_cons_space r
  | cons c cs ih =>
    have hc : c ≠ spaceChar := fun h => ht (h ▸ List.mem_cons_self c cs)
    have hcs : spaceChar ∉ cs := fun h => ht (List.mem_cons_of_mem c h)
    show splitSp (c :: (cs ++ spaceChar :: r)) = (c :: cs) :: splitSp r
    rw [splitSp, ih hcs]
    simp [hc]

theorem splitSp_joinChars :
    ∀ ps : List (List Char), ps ≠ [] → (∀ p ∈ ps, spaceChar ∉ p) →
      splitSp (joinChars [spaceChar] ps) = ps := by
  intro ps
  induction ps with
  | nil => intro h _; exact absurd rfl h
  | cons p ps ih =>
    intro _ hsp
    cases ps with
    | nil => exact splitSp_no_space p (hsp p (List.mem_cons_self _ _))
    | cons p' ps' =>
      show splitSp (p ++ [spaceChar] ++ joinChars [spaceChar] (p' :: ps')) = _
      rw [List.append_assoc, List.singleton_append]
      rw [splitSp_append_space p _ (hsp p (List.mem_cons_self _ _))]
      rw [ih (by simp) (fun q hq => hsp q (List.mem_cons_of_mem _ hq))]

/-- Round trip at the string level: splitting the space-join of a non-empty
list of space-free tokens on single spaces returns exactly the tokens. -/
theorem splitSp_pyJoinSep (ts : List String) (hne : ts ≠ [])
    (hts : SlotsNoSpace ts) :
    (splitSp (pyJoinSep " " ts).data).map List.asString = ts := by
  rw [pyJoinSep_data, space_string_data]
  rw [splitSp_joinChars (ts.map String.data) (by simpa using hne)
    (by intro p hp
        rcases List.mem_map.1 hp with ⟨t, ht, rfl⟩
        exact hts t ht)]
  rw [List.map_map]
  apply List.map_id''
  intro t
  rfl

/-! ### UTF-8 lemmas -/

theorem char_toNat_lt (c : Char) : c.toNat < 1114112 := by
  have hv := c.valid
  show c.val.toNat < 1114112
  rcases hv with h | ⟨_, h⟩ <;> omega

theorem utf8EncodeChar_lt_256 (c : Char) :
    ∀ b ∈ utf8EncodeChar c, b < 256 := by
  have hlt := char_toNat_lt c
  intro b hb
  simp only [utf8EncodeChar] at hb
  split_ifs at hb <;> simp at hb <;> omega

theorem utf8EncodeChar_ne_nil (c : Char) : utf8EncodeChar c ≠ [] := by
  simp only [utf8EncodeChar]
  split_ifs <;> simp

theorem utf8DecodeStep_encodeChar (c : Char) (r : List Nat) :
    utf8DecodeStep (utf8EncodeChar c ++ r) = some (c.toNat, r) := by
  have hlt : c.toNat < 1114112 := char_toNat_lt c
  simp only [utf8EncodeChar]
  rcases Nat.lt_or_ge c.toNat 128 with h1 | h1
  · rw [if_pos h1, List.singleton_append, utf8DecodeStep, if_pos h1]
  rcases Nat.lt_or_ge c.toNat 2048 with h2 | h2
  · rw [if_neg (show ¬c.toNat < 128 by omega), if_pos h2, List.cons_append,
      List.singleton_append, utf8DecodeStep,
      if_neg (show ¬192 + c.toNat / 64 < 128 by omega),
      if_neg (show ¬192 + c.toNat / 64 < 192 by omega),
      if_pos (show 192 + c.toNat / 64 < 224 by omega), utf8Dec2,
      if_pos (show 128 ≤ 128 + c.toNat % 64 ∧ 128 + c.toNat % 64 < 192 by
        omega)]
    have harith : (192 + c.toNat / 64 - 192) * 64 + (128 + c.toNat % 64 - 128) =
        c.toNat := by omega
    rw [harith]
  rcases Nat.lt_or_ge c.toNat 65536 with h3 | h3
  · rw [if_neg (show ¬c.toNat < 128 by omega),
      if_neg (show ¬c.toNat < 2048 by omega), if_pos h3, List.cons_append,
      List.cons_append, List.singleton_append, utf8DecodeStep,
      if_neg (show ¬224 + c.toNat / 4096 < 128 by omega),
      if_neg (show ¬224 + c.toNat / 4096 < 192 by omega),
      if_neg (show ¬224 + c.toNat / 4096 < 224 by omega),
      if_pos (show 224 + c.toNat / 4096 < 240 by omega), utf8Dec3,
      if_pos (show (128 ≤ 128 + c.toNat / 64 % 64 ∧
          128 + c.toNat / 64 % 64 < 192) ∧
          128 ≤ 128 + c.toNat % 64 ∧ 128 + c.toNat % 64 < 192 by omega)]
    have harith : (224 + c.toNat / 4096 - 224) * 4096 +
        (128 + c.toNat / 64 % 64 - 128) * 64 + (128 + c.toNat % 64 - 128) =
        c.toNat := by omega
    rw [harith]
  · rw [if_neg (show ¬c.toNat < 128 by omega),
      if_neg (show ¬c.toNat < 2048 by omega),
      if_neg (show ¬c.toNat < 65536 by omega), List.cons_append,
      List.cons_append, List.cons_append, List.singleton_append,
      utf8DecodeStep,
      if_neg (show ¬240 + c.toNat / 262144 < 128 by omega),
      if_neg (show ¬240 + c.toNat / 262144 < 192 by omega),
      if_neg (show ¬240 + c.toNat / 262144 < 224 by omega),
      if_neg (show ¬240 + c.toNat / 262144 < 240 by omega), utf8Dec4,
      if_pos (show (128 ≤ 128 + c.toNat / 4096 % 64 ∧
          128 + c.toNat / 4096 % 64 < 192) ∧
          (128 ≤ 128 + c.toNat / 64 % 64 ∧ 128 + c.toNat / 64 % 64 < 192) ∧
          128 ≤ 128 + c.toNat % 64 ∧ 128 + c.toNat % 64 < 192 by omega)]
    have harith : (240 + c.toNat / 262144 - 240) * 262144 +
        (128 + c.toNat / 4096 % 64 - 128) * 4096 +
        (128 + c.toNat / 64 % 64 - 128) * 64 + (128 + c.toNat % 64 - 128) =
        c.toNat := by omega
    rw [harith]

theorem utf8DecodeAux_flatten (cs : List Char) :
    ∀ fuel : Nat, ((cs.map utf8EncodeChar).flatten).length ≤ fuel →
      utf8DecodeAux fuel ((cs.map utf8EncodeChar).flatten) = some cs := by
  induction cs with
  | nil => intro fuel _; cases fuel <;> rfl
  | cons c cs ih =>
    intro fuel hfuel
    rw [List.map_cons, List.flatten_cons] at hfuel ⊢
    rcases henc : utf8EncodeChar c with _ | ⟨b, tl⟩
    · exact absurd henc (utf8EncodeChar_ne_nil c)
    · cases fuel with
      | zero =>
        simp at hfuel
        exact absurd hfuel.1 (utf8EncodeChar_ne_nil c)
      | succ fuel =>
        rw [List.cons_append, utf8DecodeAux, ← List.cons_append, ← henc,
          utf8DecodeStep_encodeChar]
        have hlen1 : (utf8EncodeChar c).length = tl.length + 1 := by
          rw [henc]
          rfl
        have hrec : ((cs.map utf8EncodeChar).flatten).length ≤ fuel := by
          rw [List.length_append] at hfuel
          omega
        dsimp only
        rw [ih fuel hrec]
        rw [Char.ofNat_toNat]
        rfl

theorem utf8Decode_utf8Bytes (s : String) :
    utf8Decode (utf8Bytes s) = some s.data := by
  unfold utf8Decode utf8Bytes
  exact utf8DecodeAux_flatten s.data _ (Nat.le_refl _)

theorem utf8Bytes_lt_256 (s : String) : ∀ b ∈ utf8Bytes s, b < 256 := by
  intro b hb
  unfold utf8Bytes at hb
  rcases List.mem_flatten.1 hb with ⟨l, hl, hbl⟩
  rcases List.mem_map.1 hl with ⟨c, _, rfl⟩
  exact utf8EncodeChar_lt_256 c b hbl

theorem utf8Bytes_ne_nil (s : String) (h : s.data ≠ []) :
    utf8Bytes s ≠ [] := by
  unfold utf8Bytes
  cases hd : s.data with
  | nil => exact absurd hd h
  | cons c cs =>
    rw [List.map_cons, List.flatten_cons]
    intro hcontra
    rcases List.append_eq_nil.1 hcontra with ⟨h1, _⟩
    exact utf8EncodeChar_ne_nil c h1

/-! ### Base64 lemmas -/

theorem b64dc_b64c_fin : ∀ n : Fin 64, b64dc (b64c n.val) = some n.val := by
  decide

theorem b64c_ne_eq_fin : ∀ n : Fin 64, b64c n.val ≠ '=' := by
  decide

theorem b64dc_b64c (n : Nat) (h : n < 64) : b64dc (b64c n) = some n :=
  b64dc_b64c_fin ⟨n, h⟩

theorem b64c_ne_eq (n : Nat) (h : n < 64) : b64c n ≠ '=' :=
  b64c_ne_eq_fin ⟨n, h⟩

theorem b64decode_encode :
    ∀ bs : List Nat, (∀ x ∈ bs, x < 256) →
      b64decodeList (b64encodeList bs) = some bs := by
  intro bs
  induction bs using b64encodeList.induct with
  | case1 => intro _; rfl
  | case2 a =>
    intro h
    have ha : a < 256 := h a (by simp)
    rw [b64encodeList, b64decodeList,
      b64dc_b64c (a / 4) (by omega), b64dc_b64c (a % 4 * 16) (by omega)]
    dsimp only
    rw [if_pos rfl, if_pos ⟨rfl, rfl⟩, if_pos (show a % 4 * 16 % 16 = 0 by omega)]
    have harith : a / 4 * 4 + a % 4 * 16 / 16 = a := by omega
    rw [harith]
  | case3 a b =>
    intro h
    have ha : a < 256 := h a (by simp)
    have hb : b < 256 := h b (by simp)
    rw [b64encodeList, b64decodeList,
      b64dc_b64c (a / 4) (by omega),
      b64dc_b64c (a % 4 * 16 + b / 16) (by omega)]
    dsimp only
    rw [if_neg (b64c_ne_eq (b % 16 * 4) (by omega)),
      b64dc_b64c (b % 16 * 4) (by omega)]
    dsimp only
    rw [if_pos rfl, if_pos ⟨rfl, show b % 16 * 4 % 4 = 0 by omega⟩]
    have h1 : a / 4 * 4 + (a % 4 * 16 + b / 16) / 16 = a := by omega
    have h2 : (a % 4 * 16 + b / 16) % 16 * 16 + b % 16 * 4 / 4 = b := by omega
    rw [h1, h2]
  | case4 a b c rest ih =>
    intro h
    have ha : a < 256 := h a (by simp)
    have hb : b < 256 := h b (by simp)
    have hc : c < 256 := h c (by simp)
    have hrest : ∀ x ∈ rest, x < 256 := fun x hx => h x (by simp [hx])
    rw [b64encodeList, b64decodeList,
      b64dc_b64c (a / 4) (by omega),
      b64dc_b64c (a % 4 * 16 + b / 16) (by omega)]
    dsimp only
    rw [if_neg (b64c_ne_eq (b % 16 * 4 + c / 64) (by omega)),
      b64dc_b64c (b % 16 * 4 + c / 64) (by omega)]
    dsimp only
    rw [if_neg (b64c_ne_eq (c % 64) (by omega)),
      b64dc_b64c (c % 64) (by omega)]
    dsimp only
    rw [ih hrest]
    have h1 : a / 4 * 4 + (a % 4 * 16 + b / 16) / 16 = a := by omega
    have h2 : (a % 4 * 16 + b / 16) % 16 * 16 + (b % 16 * 4 + c / 64) / 4 = b := by
      omega
    have h3 : (b % 16 * 4 + c / 64) % 4 * 64 + c % 64 = c := by omega
    rw [h1, h2, h3]
    rfl

theorem length_b64encodeList :
    ∀ bs : List Nat, (b64encodeList bs).length = 4 * ((bs.length + 2) / 3) := by
  intro bs
  induction bs using b64encodeList.induct with
  | case1 => rfl
  | case2 a => rw [b64encodeList]; simp
  | case3 a b => rw [b64encodeList]; simp
  | case4 a b c rest ih =>
    rw [b64encodeList]
    simp only [List.length_cons, ih]
    omega

theorem b64encodeList_ne_nil (bs : List Nat) (h : bs ≠ []) :
    b64encodeList bs ≠ [] := by
  intro hcontra
  have hlen := length_b64encodeList bs
  rw [hcontra] at hlen
  simp at hlen
  have : bs.length ≠ 0 := fun h0 => h (List.length_eq_zero.1 h0)
  omega

/-! ### Line-chunking lemmas -/

theorem chunks80_flatten_take (s : List Char) :
    ∀ k : Nat,
      ((List.range k).map (fun i => (s.drop (80 * i)).take 80)).flatten =
        s.take (80 * k) := by
  intro k
  induction k with
  | zero => simp
  | succ k ih =>
    rw [List.range_succ, List.map_append, List.flatten_append, ih]
    simp only [List.map_cons, List.map_nil, List.flatten_cons,
      List.flatten_nil, List.append_nil]
    rw [show 80 * (k + 1) = 80 * k + 80 by ring, List.take_add]

/-- Removing the line breaks (concatenating the chunks) recovers the full
base64 text. -/
theorem chunks80_flatten (s : List Char) : (chunks80 s).flatten = s := by
  unfold chunks80
  rw [chunks80_flatten_take]
  apply List.take_of_length_le
  have := Nat.div_add_mod (s.length + 79) 80
  omega

theorem chunks80_dropLast_length (s : List Char) :
    ∀ l ∈ (chunks80 s).dropLast, l.length = 80 := by
  unfold chunks80
  intro l hl
  cases hk : (s.length + 79) / 80 with
  | zero => rw [hk] at hl; simp at hl
  | succ k =>
    rw [hk, List.range_succ, List.map_append] at hl
    simp only [List.map_cons, List.map_nil, List.dropLast_concat] at hl
    rcases List.mem_map.1 hl with ⟨i, hi, rfl⟩
    have hik : i < k := List.mem_range.1 hi
    simp only [List.length_take, List.length_drop]
    have := Nat.div_add_mod (s.length + 79) 80
    have hmod := Nat.mod_lt (s.length + 79) (show 0 < 80 by omega)
    omega

theorem chunks80_getLast_length (s : List Char) (hs : s ≠ []) :
    (chunks80 s).getLast?.map List.length =
      some (if s.length % 80 = 0 then 80 else s.length % 80) := by
  unfold chunks80
  have hlen : s.length ≠ 0 := fun h0 => hs (List.length_eq_zero.1 h0)
  have hdm := Nat.div_add_mod (s.length + 79) 80
  have hmod := Nat.mod_lt (s.length + 79) (show 0 < 80 by omega)
  have hdm2 := Nat.div_add_mod s.length 80
  have hmod2 := Nat.mod_lt s.length (show 0 < 80 by omega)
  cases hk : (s.length + 79) / 80 with
  | zero => omega
  | succ k =>
    rw [List.range_succ, List.map_append]
    simp only [List.map_cons, List.map_nil, List.getLast?_concat,
      Option.map_some', List.length_take, List.length_drop]
    by_cases hm : s.length % 80 = 0
    · rw [if_pos hm]
      have hcalc : s.length - 80 * k = 80 := by omega
      rw [hcalc]
      simp
    · rw [if_neg hm]
      have hcalc : s.length - 80 * k = s.length % 80 := by omega
      rw [hcalc]
      have hle : s.length % 80 ≤ 80 := by omega
      rw [Nat.min_eq_right hle]

/-! ### Composite helpers for the claims -/

theorem empty_string_data : ("" : String).data = [] := rfl

theorem asString_data (l : List Char) : (List.asString l).data = l := rfl

/-- Decoding and splitting the base64 payload of a space-free token list
returns the token list. -/
theorem decodeAndSplit_encode (ts : List String) (hne : ts ≠ [])
    (hts : SlotsNoSpace ts) :
    decodeAndSplit (List.asString (b64encodeList (utf8Bytes (pyJoinSep " " ts))))
      = some ts := by
  unfold decodeAndSplit
  rw [asString_data, b64decode_encode _ (utf8Bytes_lt_256 _), Option.some_bind,
    utf8Decode_utf8Bytes, Option.map_some', splitSp_pyJoinSep ts hne hts]

theorem ne_nil_of_length_87 (ts : List String) (h : ts.length = 87) :
    ts ≠ [] := by
  intro h0
  rw [h0] at h
  simp at h

/-- The space-joined token line of an 87-token list is non-empty. -/
theorem join_data_ne_nil (ts : List String) (h : ts.length = 87) :
    (pyJoinSep " " ts).data ≠ [] := by
  rcases ts with _ | ⟨t, _ | ⟨t', ts'⟩⟩
  · simp at h
  · simp at h
  · show (t ++ " " ++ pyJoinSep " " (t' :: ts')).data ≠ []
    rw [String.data_append, String.data_append]
    intro hc
    rcases List.append_eq_nil.1 hc with ⟨hc1, _⟩
    rcases List.append_eq_nil.1 hc1 with ⟨_, hsp⟩
    rw [space_string_data] at hsp
    cases hsp

theorem payloadBasic_ne_nil (name : String) (n : Nat)
    (pts : List (String × String)) : payloadBasic name n pts ≠ [] := by
  unfold payloadBasic
  apply b64encodeList_ne_nil
  apply utf8Bytes_ne_nil
  exact join_data_ne_nil _ (length_tokensBasic name n pts)

theorem payloadCurved_ne_nil (name : String) (n : Nat)
    (pts : List (String × String)) (curves : List String) :
    payloadCurved name n pts curves ≠ [] := by
  unfold payloadCurved
  apply b64encodeList_ne_nil
  apply utf8Bytes_ne_nil
  exact join_data_ne_nil _ (length_tokensCurved name n pts curves)

theorem setPoints_take (v : List String) (pts : List (String × String)) :
    setPoints v pts = setPoints v (pts.take 16) := by
  unfold setPoints setPointsUpTo
  apply List.foldl_ext
  intro acc i hi
  have hi16 : i < 16 := List.mem_range.1 hi
  unfold pointStep
  rw [List.getElem?_take_of_lt hi16]

theorem buildValues_take (n : Nat) (pts : List (String × String)) :
    buildValues n pts = buildValues n (pts.take 16) := by
  unfold buildValues
  exact setPoints_take _ pts

theorem setCurves_take (v : List String) (curves : List String) :
    setCurves v curves = setCurves v (curves.take 15) := by
  rw [setCurves_eq_from, setCurves_eq_from, setCurvesFrom_take]

/-! ### The claims -/

/-- C1: For every shape definition — any name, any point list, any curve
list — the parameter array built by `create_basic_preset` or
`create_curved_preset` has exactly 86 slots before the name is inserted and
exactly 87 tokens afterwards, and the double-quoted name token is always the
element at index 64, immediately following index 63. -/
theorem claim1_array_sizes (name : String) (n : Nat)
    (pts : List (String × String)) (curves : List String) :
    (buildValues n pts).length = 86 ∧
    (tokensBasic name n pts).length = 87 ∧
    (tokensCurved name n pts curves).length = 87 ∧
    (tokensBasic name n pts)[64]? = some (quoteName name) ∧
    (tokensCurved name n pts curves)[64]? = some (quoteName name) :=
  ⟨length_buildValues n pts, length_tokensBasic name n pts,
    length_tokensCurved name n pts curves, tokensBasic_get64 name n pts,
    tokensCurved_get64 name n pts curves⟩

/-- C4: For every call with `pointCount` in `[1,16]` and a points list of
length `pointCount`, every point-region slot pair with pair index at least
`pointCount` holds the neutral pair `"0.5"`/`"0.5"` (hence never the
placeholder `"-"`) in the parameter array shared by `create_basic_preset`
and `create_curved_preset`. -/
theorem claim4_neutral_fill (n : Nat) (pts : List (String × String))
    (h1 : 1 ≤ n) (h2 : n ≤ 16) (h3 : pts.length = n) :
    ∀ i : Nat, n ≤ i → i < 16 →
      (buildValues n pts)[39 + 2 * i]? = some "0.5" ∧
      (buildValues n pts)[39 + 2 * i + 1]? = some "0.5" := by
  intro i hi h16
  have hnone : pts[i]? = none := List.getElem?_eq_none (by omega)
  constructor
  · rw [buildValues_get_fst n pts i h16]
    unfold fstTok
    rw [hnone]
  · rw [buildValues_get_snd n pts i h16]
    unfold sndTok
    rw [hnone]

/-- C4 witness: the 2-point `Ramp_Up` shape at pair index 5. -/
theorem claim4_witness :
    1 ≤ 2 ∧ (2 : Nat) ≤ 16 ∧
    ([("0", "0"), ("1", "1")] : List (String × String)).length = 2 ∧
    ((buildValues 2 [("0", "0"), ("1", "1")])[39 + 2 * 5]? = some "0.5" ∧
      (buildValues 2 [("0", "0"), ("1", "1")])[39 + 2 * 5 + 1]? = some "0.5") :=
  ⟨by decide, by decide, by decide,
    claim4_neutral_fill 2 [("0", "0"), ("1", "1")] (by decide) (by decide) rfl
      5 (by decide) (by decide)⟩

/-- C6: In the curved path, every supplied curve bias is written into the
fixed 15-slot region at indices 72–86 of the token sequence, and every curve
slot with index at least the length of the supplied curve list keeps the
placeholder `"-"` — it is never forced to `"0"`. -/
theorem claim6_curve_region (name : String) (n : Nat)
    (pts : List (String × String)) (curves : List String)
    (h : curves.length ≤ 15) :
    (∀ i c, curves[i]? = some c →
      (tokensCurved name n pts curves)[72 + i]? = some c) ∧
    (∀ i, curves.length ≤ i → i < 15 →
      (tokensCurved name n pts curves)[72 + i]? = some "-") := by
  constructor
  · intro i c hc
    have hi : i < curves.length := by
      by_contra hcon
      rw [List.getElem?_eq_none (by omega)] at hc
      cases hc
    rw [tokensCurved_get_curve name n pts curves i hi (by omega), hc]
  · intro i hi h15
    exact tokensCurved_get_dash name n pts curves i hi h15

/-- C6 witness: the `Shark_Fin` shape with its two curve biases. -/
theorem claim6_witness :
    (["-0.5", "0.5"] : List String).length ≤ 15 ∧
    ((∀ i c, (["-0.5", "0.5"] : List String)[i]? = some c →
      (tokensCurved "Shark_Fin" 3 [("0", "0"), ("0.2", "1"), ("1", "0")]
        ["-0.5", "0.5"])[72 + i]? = some c) ∧
    (∀ i, (["-0.5", "0.5"] : List String).length ≤ i → i < 15 →
      (tokensCurved "Shark_Fin" 3 [("0", "0"), ("0.2", "1"), ("1", "0")]
        ["-0.5", "0.5"])[72 + i]? = some "-")) :=
  ⟨by decide,
    claim6_curve_region "Shark_Fin" 3 [("0", "0"), ("0.2", "1"), ("1", "0")]
      ["-0.5", "0.5"] (by decide)⟩

/-- C9: `create_basic_preset` coincides with `create_curved_preset`
specialised to a curve list of fifteen `"0"` strings (the rendering of
fifteen zero biases), for every name, point count and point list. -/
theorem claim9_basic_is_curved_zero (name : String) (n : Nat)
    (pts : List (String × String)) :
    create_basic_preset name n pts =
      create_curved_preset name n pts (List.replicate 15 "0") := rfl

/-- C10: Neither function ever writes outside the parameter array, and
oversized inputs are ignored rather than failing: only the first 16 points
and the first 15 curve values influence the output, and the token sequence
still has exactly 87 entries. -/
theorem claim10_oversized_inputs (name : String) (n : Nat)
    (pts : List (String × String)) (curves : List String) :
    create_basic_preset name n pts =
      create_basic_preset name n (pts.take 16) ∧
    create_curved_preset name n pts curves =
      create_curved_preset name n (pts.take 16) (curves.take 15) ∧
    (tokensBasic name n pts).length = 87 ∧
    (tokensCurved name n pts curves).length = 87 := by
  refine ⟨?_, ?_, length_tokensBasic name n pts,
    length_tokensCurved name n pts curves⟩
  · unfold create_basic_preset tokensBasic
    rw [← buildValues_take]
  · unfold create_curved_preset tokensCurved
    rw [← buildValues_take, ← setCurves_take]

/-- C3: For every shape definition whose tokens are space-free (the name
contains no space; point coordinates and curve biases are decimal renderings
of numbers, which contain no space), base64-decoding the payload produced by
`create_basic_preset` or `create_curved_preset` — after removing the line
breaks and 4-space indentation, i.e. concatenating the emitted chunks back
into the payload — and splitting the decoded text on single spaces
reproduces the original 87-token sequence exactly. -/
theorem claim3_round_trip (name : String) (n : Nat)
    (pts : List (String × String)) (curves : List String)
    (hname : NoSpace name)
    (hpts : ∀ p ∈ pts, NoSpace p.1 ∧ NoSpace p.2)
    (hcur : ∀ c ∈ curves, NoSpace c) :
    (create_basic_preset name n pts =
        pyJoinSep "\n    "
          ((chunks80 (payloadBasic name n pts)).map List.asString) ∧
      (chunks80 (payloadBasic name n pts)).flatten = payloadBasic name n pts ∧
      decodeAndSplit (List.asString (payloadBasic name n pts)) =
        some (tokensBasic name n pts) ∧
      (tokensBasic name n pts).length = 87) ∧
    (create_curved_preset name n pts curves =
        pyJoinSep "\n    "
          ((chunks80 (payloadCurved name n pts curves)).map List.asString) ∧
      (chunks80 (payloadCurved name n pts curves)).flatten =
        payloadCurved name n pts curves ∧
      decodeAndSplit (List.asString (payloadCurved name n pts curves)) =
        some (tokensCurved name n pts curves) ∧
      (tokensCurved name n pts curves).length = 87) := by
  constructor
  · refine ⟨rfl, chunks80_flatten _, ?_, length_tokensBasic name n pts⟩
    exact decodeAndSplit_encode _
      (ne_nil_of_length_87 _ (length_tokensBasic name n pts))
      (slotsNoSpace_tokensBasic name n pts hname hpts)
  · refine ⟨rfl, chunks80_flatten _, ?_, length_tokensCurved name n pts curves⟩
    exact decodeAndSplit_encode _
      (ne_nil_of_length_87 _ (length_tokensCurved name n pts curves))
      (slotsNoSpace_tokensCurved name n pts curves hname hpts hcur)

/-- C3 witness: the `Ramp_Up` shape (and a curve list) at concrete inputs. -/
theorem claim3_witness :
    NoSpace "Ramp_Up" ∧
    (∀ p ∈ ([("0", "0"), ("1", "1")] : List (String × String)),
      NoSpace p.1 ∧ NoSpace p.2) ∧
    (∀ c ∈ (["-0.5", "0.5"] : List String), NoSpace c) ∧
    ((create_basic_preset "Ramp_Up" 2 [("0", "0"), ("1", "1")] =
        pyJoinSep "\n    "
          ((chunks80 (payloadBasic "Ramp_Up" 2 [("0", "0"), ("1", "1")])).map
            List.asString) ∧
      (chunks80 (payloadBasic "Ramp_Up" 2 [("0", "0"), ("1", "1")])).flatten =
        payloadBasic "Ramp_Up" 2 [("0", "0"), ("1", "1")] ∧
      decodeAndSplit
          (List.asString (payloadBasic "Ramp_Up" 2 [("0", "0"), ("1", "1")])) =
        some (tokensBasic "Ramp_Up" 2 [("0", "0"), ("1", "1")]) ∧
      (tokensBasic "Ramp_Up" 2 [("0", "0"), ("1", "1")]).length = 87) ∧
    (create_curved_preset "Ramp_Up" 2 [("0", "0"), ("1", "1")]
          ["-0.5", "0.5"] =
        pyJoinSep "\n    "
          ((chunks80 (payloadCurved "Ramp_Up" 2 [("0", "0"), ("1", "1")]
            ["-0.5", "0.5"])).map List.asString) ∧
      (chunks80 (payloadCurved "Ramp_Up" 2 [("0", "0"), ("1", "1")]
          ["-0.5", "0.5"])).flatten =
        payloadCurved "Ramp_Up" 2 [("0", "0"), ("1", "1")] ["-0.5", "0.5"] ∧
      decodeAndSplit
          (List.asString (payloadCurved "Ramp_Up" 2 [("0", "0"), ("1", "1")]
            ["-0.5", "0.5"])) =
        some (tokensCurved "Ramp_Up" 2 [("0", "0"), ("1", "1")]
          ["-0.5", "0.5"]) ∧
      (tokensCurved "Ramp_Up" 2 [("0", "0"), ("1", "1")]
        ["-0.5", "0.5"]).length = 87)) :=
  ⟨by decide, by decide, by decide,
    claim3_round_trip "Ramp_Up" 2 [("0", "0"), ("1", "1")] ["-0.5", "0.5"]
      (by decide) (by decide) (by decide)⟩

/-- C7: For every shape definition, both functions emit the base64 payload
split into 80-character chunks joined by a newline plus four spaces; every
chunk before the last is exactly 80 characters long, and the last chunk's
length is `len(encoded) mod 80`, or 80 when the length divides evenly. -/
theorem claim7_line_wrapping (name : String) (n : Nat)
    (pts : List (String × String)) (curves : List String) :
    (create_basic_preset name n pts =
        pyJoinSep "\n    "
          ((chunks80 (payloadBasic name n pts)).map List.asString) ∧
      (∀ l ∈ (chunks80 (payloadBasic name n pts)).dropLast, l.length = 80) ∧
      (chunks80 (payloadBasic name n pts)).getLast?.map List.length =
        some (if (payloadBasic name n pts).length % 80 = 0 then 80
          else (payloadBasic name n pts).length % 80)) ∧
    (create_curved_preset name n pts curves =
        pyJoinSep "\n    "
          ((chunks80 (payloadCurved name n pts curves)).map List.asString) ∧
      (∀ l ∈ (chunks80 (payloadCurved name n pts curves)).dropLast,
        l.length = 80) ∧
      (chunks80 (payloadCurved name n pts curves)).getLast?.map List.length =
        some (if (payloadCurved name n pts curves).length % 80 = 0 then 80
          else (payloadCurved name n pts curves).length % 80)) :=
  ⟨⟨rfl, chunks80_dropLast_length _,
      chunks80_getLast_length _ (payloadBasic_ne_nil name n pts)⟩,
    ⟨rfl, chunks80_dropLast_length _,
      chunks80_getLast_length _ (payloadCurved_ne_nil name n pts curves)⟩⟩

/-- C7 witness: the `Ramp_Up` shape at concrete inputs. -/
theorem claim7_witness :
    (create_basic_preset "Ramp_Up" 2 [("0", "0"), ("1", "1")] =
        pyJoinSep "\n    "
          ((chunks80 (payloadBasic "Ramp_Up" 2 [("0", "0"), ("1", "1")])).map
            List.asString) ∧
      (∀ l ∈ (chunks80
          (payloadBasic "Ramp_Up" 2 [("0", "0"), ("1", "1")])).dropLast,
        l.length = 80) ∧
      (chunks80 (payloadBasic "Ramp_Up" 2
          [("0", "0"), ("1", "1")])).getLast?.map List.length =
        some (if (payloadBasic "Ramp_Up" 2
            [("0", "0"), ("1", "1")]).length % 80 = 0 then 80
          else (payloadBasic "Ramp_Up" 2
            [("0", "0"), ("1", "1")]).length % 80)) ∧
    (create_curved_preset "Ramp_Up" 2 [("0", "0"), ("1", "1")]
          ["-0.5", "0.5"] =
        pyJoinSep "\n    "
          ((chunks80 (payloadCurved "Ramp_Up" 2 [("0", "0"), ("1", "1")]
            ["-0.5", "0.5"])).map List.asString) ∧
      (∀ l ∈ (chunks80 (payloadCurved "Ramp_Up" 2 [("0", "0"), ("1", "1")]
          ["-0.5", "0.5"])).dropLast, l.length = 80) ∧
      (chunks80 (payloadCurved "Ramp_Up" 2 [("0", "0"), ("1", "1")]
          ["-0.5", "0.5"])).getLast?.map List.length =
        some (if (payloadCurved "Ramp_Up" 2 [("0", "0"), ("1", "1")]
            ["-0.5", "0.5"]).length % 80 = 0 then 80
          else (payloadCurved "Ramp_Up" 2 [("0", "0"), ("1", "1")]
            ["-0.5", "0.5"]).length % 80)) :=
  claim7_line_wrapping "Ramp_Up" 2 [("0", "0"), ("1", "1")] ["-0.5", "0.5"]

/-- C2 counterexample: a shape whose name contains a backtick is not rejected
and output is produced — the library generated from the single bad-named
shape differs from the empty library, and the backtick name is embedded
verbatim (in double quotes) as token 64 of the encoded payload. -/
theorem claim2_counterexample :
    ¬(libraryOutput [("Bad`Tick", 1, [("0", "0")])] [] =
        libraryOutput [] []) ∧
    (tokensBasic "Bad`Tick" 1 [("0", "0")])[64]? = some "\"Bad`Tick\"" := by
  constructor
  · set_option maxRecDepth 100000 in decide
  · set_option maxRecDepth 100000 in decide

/-- C2 amended: the script performs no precondition validation at all — every
shape definition, whatever its name (backticks and quotes included), point
count, point list or curve list, yields a normally formatted record in the
library output through both `create_basic_preset` and
`create_curved_preset`, with the quoted name embedded as token 64. -/
theorem claim2_no_validation (name : String) (n : Nat)
    (pts : List (String × String)) (curves : List String) :
    libraryOutput [(name, n, pts)] [] =
      "<REAPER_PRESET_LIBRARY \"JS: SideFX Modulator\"\n" ++
        recordText name (create_basic_preset name n pts) ++ ">\n" ∧
    libraryOutput [] [(name, n, pts, curves)] =
      "<REAPER_PRESET_LIBRARY \"JS: SideFX Modulator\"\n" ++
        recordText name (create_curved_preset name n pts curves) ++ ">\n" ∧
    (tokensBasic name n pts)[64]? = some (quoteName name) ∧
    (tokensCurved name n pts curves)[64]? = some (quoteName name) := by
  refine ⟨?_, ?_, tokensBasic_get64 name n pts,
    tokensCurved_get64 name n pts curves⟩
  · unfold libraryOutput
    simp only [List.foldl_cons, List.foldl_nil]
    apply String.ext
    simp [String.data_append, empty_string_data]
  · unfold libraryOutput
    simp only [List.foldl_cons, List.foldl_nil]
    apply String.ext
    simp [String.data_append, empty_string_data]

/-- C5 counterexample: for the 2-point `Ramp_Up` shape with points
`[(0,0),(1,1)]`, slot 40 does not hold `"1"` (it holds `"0"`, the y-value of
the first point) and slot 41 does not hold `"0.5"` (it holds `"1"`, the
x-value of the second point), contradicting the claimed layout. -/
theorem claim5_counterexample :
    ¬((buildValues 2 [("0", "0"), ("1", "1")])[40]? = some "1" ∧
      (buildValues 2 [("0", "0"), ("1", "1")])[41]? = some "0.5") := by
  decide

/-- C5 amended: for the 2-point `Ramp_Up` shape with points `[(0,0),(1,1)]`
and no curves, the built array places `"0"`, `"0"` at slots 39, 40 (the first
point), `"1"`, `"1"` at slots 41, 42 (the second point), the neutral `"0.5"`
at every slot in 43–70 (the unused point pairs), `"2"` at the point-count
slot 29, and the token `"Ramp_Up"` in double quotes immediately after slot
63, at index 64 of the 87-token sequence. -/
theorem claim5_ramp_up :
    (buildValues 2 [("0", "0"), ("1", "1")])[39]? = some "0" ∧
    (buildValues 2 [("0", "0"), ("1", "1")])[40]? = some "0" ∧
    (buildValues 2 [("0", "0"), ("1", "1")])[41]? = some "1" ∧
    (buildValues 2 [("0", "0"), ("1", "1")])[42]? = some "1" ∧
    ((buildValues 2 [("0", "0"), ("1", "1")]).drop 43).take 28 =
      List.replicate 28 "0.5" ∧
    (buildValues 2 [("0", "0"), ("1", "1")])[29]? = some "2" ∧
    (tokensBasic "Ramp_Up" 2 [("0", "0"), ("1", "1")])[64]? =
      some "\"Ramp_Up\"" := by
  decide

/-- C8: the emitted library text is exactly the header line, the records of
the nine basic shapes and the one curved shape in the order of the static
definition tables — each record being the backtick-delimited `<PRESET` line,
the indented encoded body and a closing `>` line — followed by the trailing
`>` line; this holds for every value of the floating-point sine table. -/
theorem claim8_library_format (sinePts : List (String × String)) :
    mainOutput sinePts =
      "<REAPER_PRESET_LIBRARY \"JS: SideFX Modulator\"\n" ++
      recordText "Sine" (create_basic_preset "Sine" 16 sinePts) ++
      recordText "Triangle" (create_basic_preset "Triangle" 3
        [("0", "0"), ("0.5", "1"), ("1", "0")]) ++
      recordText "Sawtooth" (create_basic_preset "Sawtooth" 4
        [("0", "0.5"), ("0.499", "1"), ("0.5", "0"), ("1", "0.5")]) ++
      recordText "Square" (create_basic_preset "Square" 4
        [("0", "1"), ("0.499", "1"), ("0.5", "0"), ("1", "0")]) ++
      recordText "Ramp_Up" (create_basic_preset "Ramp_Up" 2
        [("0", "0"), ("1", "1")]) ++
      recordText "Ramp_Down" (create_basic_preset "Ramp_Down" 2
        [("0", "1"), ("1", "0")]) ++
      recordText "Growl" (create_basic_preset "Growl" 6
        [("0", "0.1"), ("0.2", "0.8"), ("0.4", "0.2"), ("0.6", "0.9"),
          ("0.8", "0.3"), ("1", "0")]) ++
      recordText "Exp_Rise" (create_basic_preset "Exp_Rise" 2
        [("0", "0"), ("1", "1")]) ++
      recordText "Exp_Fall" (create_basic_preset "Exp_Fall" 2
        [("0", "1"), ("1", "0")]) ++
      recordText "Shark_Fin" (create_curved_preset "Shark_Fin" 3
        [("0", "0"), ("0.2", "1"), ("1", "0")] ["-0.5", "0.5"]) ++
      ">\n" := by
  unfold mainOutput libraryOutput basicTable curvedTable
  simp only [List.foldl_cons, List.foldl_nil]
  apply String.ext
  simp [String.data_append, empty_string_data]

end SideFX
